import Mathlib

/-!
Shallow embedding of the session-state logic of two Streamlit tour-planner
apps: `src/TOUR.py` (variant 1) and `src/tour1.py` (variant 2).

The remote Gemini endpoint is external to the repository, so one streamed
call is modelled by its observable behaviour (`StreamOutcome`): either the
stream of chunks completes, or it raises with a message after yielding some
chunks.  Whether the model object was configured (`model is not None`) is a
boolean parameter.  The generator `get_gemini_response` is modelled by the
pair (list of text fragments it yields, session state after the generator is
fully drained) — the Streamlit callers always drain it with
`st.write_stream`.  Timestamps (`datetime.now()`) are external and appear as
`now : String` parameters.
-/

/-- One conversation record: the Python dict with keys `"role"` and
`"parts"` (a list of strings; the apps always append a one-element list). -/
structure ChatRecord where
  role : String
  parts : List String
deriving DecidableEq

/-- One streamed chunk from the remote endpoint: the code only checks
`hasattr(chunk, 'text')`, so a chunk either carries a text or does not. -/
inductive Chunk where
  | text (s : String)
  | nonText
deriving DecidableEq

/-- Observable behaviour of one remote streamed call: the stream either
completes after yielding `chunks`, or raises an exception rendered as `msg`
after yielding `chunks`. -/
inductive StreamOutcome where
  | ok (chunks : List Chunk)
  | err (chunks : List Chunk) (msg : String)
deriving DecidableEq

/-- The text fragments the generator extracts from a chunk list, in order;
chunks without a `text` attribute are skipped (`if hasattr(chunk, 'text')`). -/
def textFragments : List Chunk → List String
  | [] => []
  | .text t :: cs => t :: textFragments cs
  | .nonText :: cs => textFragments cs

namespace TOUR

/-- `get_gemini_response(question, chat_history)` from `src/TOUR.py`
(lines 52-87).  The session store (`st.session_state.chat_history`) is the
explicit `store` argument; the result is (fragments yielded, store after).
* `model` unset: yield one error fragment, return, store untouched.
* stream completes: yield each chunk text, accumulate `full_response_text`,
  then append the user record and the model record to the store.
* stream raises: the fragments yielded so far stand, the except-branch
  yields one diagnostic fragment, and the appends are never reached. -/
def get_gemini_response (modelConfigured : Bool) (outcome : StreamOutcome)
    (question : String) (history store : List ChatRecord) :
    List String × List ChatRecord :=
  if modelConfigured = false then
    (["Error: Gemini model is not initialized. Please check your API key."], store)
  else
    match outcome with
    | .ok chunks =>
        let frags := textFragments chunks
        (frags, store ++ [⟨"user", [question]⟩, ⟨"model", [String.join frags]⟩])
    | .err chunks msg =>
        (textFragments chunks ++ ["Sorry, I encountered an error: " ++ msg], store)

end TOUR

namespace tour1

/-- The `st.session_state.current_trip` dict.  In `generate_plan` it is
assigned all seven keys; `load_saved_itinerary` assigns only the first four,
so the last three are `Option`s (`none` = key absent from the dict). -/
structure Trip where
  destination : String
  duration : Nat
  interests : String
  style : String
  budget : Option String
  travelers : Option Nat
  accommodation : Option String
deriving DecidableEq

/-- One element of `st.session_state.saved_itineraries`, as built by
`save_itinerary` (lines 92-103 of `src/tour1.py`). -/
structure Itinerary where
  destination : String
  duration : Nat
  interests : String
  style : String
  timestamp : String
  chat_history : List ChatRecord
deriving DecidableEq

/-- `st.session_state.trip_stats` (lines 60-65 of `src/tour1.py`);
`destinations` is a Python list used with a membership guard. -/
structure TripStats where
  total_trips : Nat
  total_days : Nat
  destinations : List String
deriving DecidableEq

/-- The per-session state of `src/tour1.py`. -/
structure SessionState where
  chat_history : List ChatRecord
  saved_itineraries : List Itinerary
  current_trip : Option Trip
  trip_stats : TripStats
deriving DecidableEq

/-- The session state right after initialization (lines 50-65). -/
def initState : SessionState :=
  { chat_history := []
    saved_itineraries := []
    current_trip := none
    trip_stats := { total_trips := 0, total_days := 0, destinations := [] } }

/-- `get_gemini_response(question, chat_history)` from `src/tour1.py`
(lines 68-90); identical control flow to the `TOUR.py` variant, with the
whole session state threaded through (only `chat_history` is touched). -/
def get_gemini_response (modelConfigured : Bool) (outcome : StreamOutcome)
    (question : String) (history : List ChatRecord) (s : SessionState) :
    List String × SessionState :=
  if modelConfigured = false then
    (["❌ Error: Gemini model is not initialized. Please check your API key."], s)
  else
    match outcome with
    | .ok chunks =>
        let frags := textFragments chunks
        (frags,
          { s with chat_history := s.chat_history ++
              [⟨"user", [question]⟩, ⟨"model", [String.join frags]⟩] })
    | .err chunks msg =>
        (textFragments chunks ++ ["Sorry, I encountered an error: " ++ msg], s)

/-- `save_itinerary(destination, duration, interests, style)` (lines 92-103):
appends one snapshot whose `chat_history` is `st.session_state.chat_history.copy()`
(a copy — modelled by value here; aliasing is modelled in `RefSem` below). -/
def save_itinerary (s : SessionState) (destination : String) (duration : Nat)
    (interests style now : String) : SessionState :=
  { s with saved_itineraries := s.saved_itineraries ++
      [⟨destination, duration, interests, style, now, s.chat_history⟩] }

/-- The 💾 Save Trip button handler (lines 223-230): only acts when
`st.session_state.current_trip` is truthy (a non-`None` dict), and passes the
dict's destination, duration, interests and style to `save_itinerary`. -/
def save_trip_button (s : SessionState) (now : String) : SessionState :=
  match s.current_trip with
  | none => s
  | some ct => save_itinerary s ct.destination ct.duration ct.interests ct.style now

/-- The 🗑️ Clear Chat button handler (lines 218-220): rebinds
`st.session_state.chat_history` to a fresh empty list. -/
def clear_chat_button (s : SessionState) : SessionState :=
  { s with chat_history := [] }

/-- Python list subscription `l[i]`: a negative index counts from the end;
an index out of range raises `IndexError`, modelled by `none`. -/
def pyGet {α : Type} (l : List α) (i : Int) : Option α :=
  let j : Int := if i < 0 then i + l.length else i
  if 0 ≤ j then l.get? j.toNat else none

/-- `load_saved_itinerary(index)` (lines 114-123): subscripts
`saved_itineraries` first (so an `IndexError`, modelled by `none`, happens
before any assignment and the state is unmutated), then rebinds
`chat_history` to a copy of the snapshot's and `current_trip` to a dict with
exactly the four saved keys. -/
def load_saved_itinerary (s : SessionState) (i : Int) : Option SessionState :=
  match pyGet s.saved_itineraries i with
  | none => none
  | some it => some
      { s with
        chat_history := it.chat_history,
        current_trip := some
          ⟨it.destination, it.duration, it.interests, it.style, none, none, none⟩ }

/-- Abstract syntax of the JSON documents the app builds; `json.dumps` /
`json.loads` are the Python library's faithful serialization of these values
(object key order = insertion order). -/
inductive Json where
  | null
  | str (s : String)
  | num (n : Int)
  | arr (xs : List Json)
  | obj (fields : List (String × Json))

/-- The JSON value of one conversation record. -/
def chatRecordToJson (r : ChatRecord) : Json :=
  .obj [("role", .str r.role), ("parts", .arr (r.parts.map Json.str))]

/-- The JSON value of the `current_trip` dict; absent optional keys
(after a `load_saved_itinerary`) produce no field. -/
def tripToJson (t : Trip) : Json :=
  .obj ([("destination", Json.str t.destination), ("duration", Json.num t.duration),
         ("interests", Json.str t.interests), ("style", Json.str t.style)]
    ++ (match t.budget with | some b => [("budget", Json.str b)] | none => [])
    ++ (match t.travelers with | some n => [("travelers", Json.num n)] | none => [])
    ++ (match t.accommodation with
        | some a => [("accommodation", Json.str a)] | none => []))

/-- `export_chat_history()` (lines 105-112): builds the export document from
the session state and returns it; the function assigns nothing, so the
session state comes back unchanged in the first component. -/
def export_chat_history (s : SessionState) (now : String) : SessionState × Json :=
  (s, .obj
    [("trip_details",
        match s.current_trip with | none => Json.null | some t => tripToJson t),
     ("chat_history", .arr (s.chat_history.map chatRecordToJson)),
     ("exported_at", .str now)])

/-- Key lookup in a JSON object's field list (first match). -/
def jsonLookup (fields : List (String × Json)) (key : String) : Option Json :=
  match fields with
  | [] => none
  | (k, v) :: rest => if k = key then some v else jsonLookup rest key

/-- The keys of a JSON object, in order. -/
def jsonKeys : Json → List String
  | .obj fields => fields.map Prod.fst
  | _ => []

/-- Member access on a JSON object. -/
def jsonField (doc : Json) (key : String) : Option Json :=
  match doc with
  | .obj fields => jsonLookup fields key
  | _ => none

/-- Decode a JSON array of strings. -/
def decodeStringList : List Json → Option (List String)
  | [] => some []
  | .str s :: rest => (decodeStringList rest).map (s :: ·)
  | _ => none

/-- Decode one conversation record from its JSON value. -/
def decodeChatRecord : Json → Option ChatRecord
  | .obj fields =>
      match jsonLookup fields "role", jsonLookup fields "parts" with
      | some (.str r), some (.arr ps) => (decodeStringList ps).map (fun l => ⟨r, l⟩)
      | _, _ => none
  | _ => none

/-- Decode a list of conversation records. -/
def decodeChatRecords : List Json → Option (List ChatRecord)
  | [] => some []
  | j :: rest =>
      match decodeChatRecord j, decodeChatRecords rest with
      | some r, some rs => some (r :: rs)
      | _, _ => none

/-- Parse the `chat_history` member back out of an export document. -/
def parseExportedChatHistory (doc : Json) : Option (List ChatRecord) :=
  match doc with
  | .obj fields =>
      match jsonLookup fields "chat_history" with
      | some (.arr items) => decodeChatRecords items
      | _ => none
  | _ => none

/-- The characters after the first space, or `none` when no space occurs. -/
def afterFirstSpace : List Char → Option (List Char)
  | [] => none
  | c :: rest => if c = ' ' then some rest else afterFirstSpace rest

/-- `interest.split(" ", 1)[1] if " " in interest else interest`
(line 356): drop everything up to and including the first space. -/
def stripEmoji (interest : String) : String :=
  match afterFirstSpace interest.data with
  | none => interest
  | some rest => String.mk rest

/-- The statistics update of the `generate_plan` handler (lines 368-372). -/
def updateStats (ts : TripStats) (destination : String) (duration : Nat) : TripStats :=
  { total_trips := ts.total_trips + 1
    total_days := ts.total_days + duration
    destinations :=
      if destination ∈ ts.destinations then ts.destinations
      else ts.destinations ++ [destination] }

/-- The `model_prompt` f-string of the `generate_plan` handler
(lines 390-409 of `src/tour1.py`); `joined` is the comma-joined cleaned
interest list. -/
def build_model_prompt (duration : Nat) (destination : String) (travelers : Nat)
    (budget joined style accommodation additional_prefs : String) : String :=
  "Plan a comprehensive " ++ toString duration ++ "-day trip to " ++ destination
    ++ " for " ++ toString travelers ++ " traveler(s) with a " ++ budget
    ++ " budget.\n\nTravel Interests: " ++ joined
    ++ "\nTravel Style: " ++ style
    ++ "\nAccommodation Preference: " ++ accommodation
    ++ "\nAdditional Preferences: "
    ++ (if additional_prefs = "" then "None" else additional_prefs)
    ++ "\n\nCreate a detailed day-by-day itinerary that includes:\n"
    ++ "1. Daily activities with specific timings\n"
    ++ "2. Recommended restaurants for each meal\n"
    ++ "3. Transportation options between locations\n"
    ++ "4. Estimated costs for activities and meals\n"
    ++ "5. Cultural tips and local insights\n"
    ++ "6. Hidden gems and local favorites\n"
    ++ "7. Best times to visit attractions\n"
    ++ "8. Photography opportunities\n"
    ++ "9. Weather considerations\n"
    ++ "10. Packing suggestions\n\n"
    ++ "Make it engaging, practical, and easy to follow. Use emojis and clear formatting."

/-- The `generate_plan` handler of `src/tour1.py` (lines 345-421): blocked by
an empty destination or empty interest list, or an unconfigured model;
otherwise clears `chat_history`, stores `current_trip` (all seven keys),
updates `trip_stats` — all BEFORE the streamed call — then drains
`get_gemini_response(model_prompt, [])`. -/
def generate_plan_handler (modelConfigured : Bool) (outcome : StreamOutcome)
    (destination : String) (duration : Nat) (interests : List String)
    (budget : String) (travelers : Nat)
    (additional_prefs style accommodation : String)
    (s : SessionState) : SessionState :=
  if destination = "" ∨ interests = [] then s
  else if modelConfigured = false then s
  else
    let clean_interests := interests.map stripEmoji
    let joined := String.intercalate ", " clean_interests
    let s1 : SessionState :=
      { s with
        chat_history := [],
        current_trip := some
          ⟨destination, duration, joined, style,
            some budget, some travelers, some accommodation⟩,
        trip_stats := updateStats s.trip_stats destination duration }
    let model_prompt :=
      build_model_prompt duration destination travelers budget joined style
        accommodation additional_prefs
    (get_gemini_response modelConfigured outcome model_prompt [] s1).2

/-- The follow-up / quick-action handler (lines 424-447): a falsy (empty)
query, an empty chat history, or an unconfigured model leave the state
alone; otherwise the generator runs with the existing history. -/
def followup_handler (modelConfigured : Bool) (outcome : StreamOutcome)
    (user_query : String) (s : SessionState) : SessionState :=
  if user_query = "" then s
  else if s.chat_history = [] then s
  else if modelConfigured = false then s
  else (get_gemini_response modelConfigured outcome user_query s.chat_history s).2

/-- One user-triggered operation of `src/tour1.py`, with the external inputs
(remote-stream behaviour, form fields, clock) as constructor arguments. -/
inductive Op where
  | generate (modelConfigured : Bool) (outcome : StreamOutcome) (destination : String)
      (duration : Nat) (interests : List String) (budget : String) (travelers : Nat)
      (additional_prefs style accommodation : String)
  | followup (modelConfigured : Bool) (outcome : StreamOutcome) (user_query : String)
  | clearChat
  | saveTrip (now : String)
  | loadSaved (i : Int)
  | exportChat (now : String)

/-- The session state after one operation.  An out-of-range `loadSaved`
raises before assigning, so the state is returned unchanged. -/
def applyOp (op : Op) (s : SessionState) : SessionState :=
  match op with
  | .generate mc oc dest dur ints b tv ap sty acc =>
      generate_plan_handler mc oc dest dur ints b tv ap sty acc s
  | .followup mc oc q => followup_handler mc oc q s
  | .clearChat => clear_chat_button s
  | .saveTrip now => save_trip_button s now
  | .loadSaved i => (load_saved_itinerary s i).getD s
  | .exportChat now => (export_chat_history s now).1

end tour1

namespace RefSem

/-!
Reference-semantics model of the `chat_history` lists of `src/tour1.py`,
for the aliasing behaviour of `list.copy()`: list objects live in a heap of
cells, `st.session_state.chat_history` names a cell, each saved snapshot's
`chat_history` names a cell.  `append` mutates the named cell in place;
`st.session_state.chat_history = []` and `.copy()` allocate fresh cells.
-/

/-- Heap of Python list objects (a cell index is an object identity),
the cell named by `st.session_state.chat_history`, and the cells named by
the `chat_history` entries of `st.session_state.saved_itineraries`. -/
structure HState where
  heap : List (List ChatRecord)
  chatCell : Nat
  savedCells : List Nat
deriving DecidableEq

/-- Contents of a heap cell. -/
def readCell (s : HState) (c : Nat) : List ChatRecord :=
  s.heap.getD c []

/-- `st.session_state.chat_history.append(r)` (lines 85-86): in-place
mutation of the object the live store names. -/
def appendRec (s : HState) (r : ChatRecord) : HState :=
  { s with heap := s.heap.set s.chatCell (readCell s s.chatCell ++ [r]) }

/-- `st.session_state.chat_history = []` (line 219): rebinds the live store
to a freshly allocated empty list; old objects keep their contents. -/
def clearHist (s : HState) : HState :=
  { heap := s.heap ++ [[]], chatCell := s.heap.length, savedCells := s.savedCells }

/-- `save_itinerary`'s `"chat_history": st.session_state.chat_history.copy()`
(line 100): allocates a fresh cell holding a copy of the live contents and
records that cell in the snapshot list; returns the new snapshot's cell. -/
def saveCopy (s : HState) : HState × Nat :=
  ({ heap := s.heap ++ [readCell s s.chatCell],
     chatCell := s.chatCell,
     savedCells := s.savedCells ++ [s.heap.length] }, s.heap.length)

/-- The store-touching operations that can follow a save: appending a record
(a completed turn appends two, i.e. two of these) or resetting the store. -/
inductive HOp where
  | append (r : ChatRecord)
  | clear

/-- Apply one store operation. -/
def applyHOp : HOp → HState → HState
  | .append r, s => appendRec s r
  | .clear, s => clearHist s

/-- Apply a sequence of store operations, oldest first. -/
def applyHOps : List HOp → HState → HState
  | [], s => s
  | op :: ops, s => applyHOps ops (applyHOp op s)

end RefSem

/-! ### Concrete session states used by counterexamples and witnesses -/

/-- A concrete session with one saved snapshot, for the C3 statements. -/
def c3State : tour1.SessionState :=
  { chat_history := [⟨"user", ["current question"]⟩]
    saved_itineraries :=
      [⟨"Paris", 5, "museums", "Relaxed", "2024-01-01 00:00:00",
        [⟨"user", ["saved question"]⟩]⟩]
    current_trip := none
    trip_stats := ⟨1, 5, ["Paris"]⟩ }

/-- A concrete session whose saved snapshot's history differs from the live
store, for the C5 statements. -/
def c5State : tour1.SessionState :=
  { chat_history := [⟨"user", ["old question"]⟩]
    saved_itineraries :=
      [⟨"Rome", 4, "art", "Balanced", "2024-02-02 08:00:00",
        [⟨"user", ["saved q"]⟩, ⟨"model", ["saved a"]⟩]⟩]
    current_trip := none
    trip_stats := ⟨1, 4, ["Rome"]⟩ }

/-- A concrete active trip carrying all seven keys, for the C10 witness. -/
def c10Trip : tour1.Trip :=
  ⟨"Tokyo", 3, "Food & Cuisine", "Relaxed", some "Luxury", some 2, some "Hotels"⟩

/-- A concrete session with `c10Trip` active, for the C10 witness. -/
def c10State : tour1.SessionState :=
  { chat_history := [⟨"user", ["q"]⟩, ⟨"model", ["itinerary"]⟩]
    saved_itineraries := []
    current_trip := some c10Trip
    trip_stats := ⟨1, 3, ["Tokyo"]⟩ }

/-- A concrete heap state with one live store cell, for the C9 witness. -/
def c9State : RefSem.HState :=
  ⟨[[⟨"user", ["hi"]⟩]], 0, []⟩

/-! ### Helper lemmas -/

/-- The generator never touches `trip_stats`. -/
theorem gemini_preserves_stats (mc : Bool) (oc : StreamOutcome) (q : String)
    (hist : List ChatRecord) (s : tour1.SessionState) :
    (tour1.get_gemini_response mc oc q hist s).2.trip_stats = s.trip_stats := by
  cases mc <;> cases oc <;> simp [tour1.get_gemini_response]

/-- `pyGet` at a nonnegative index is plain list lookup. -/
theorem pyGet_nonneg {α : Type} (l : List α) (i : Int) (h : 0 ≤ i) :
    tour1.pyGet l i = l.get? i.toNat := by
  have h1 : ¬ i < 0 := by omega
  simp [tour1.pyGet, h1, h]

/-- `pyGet` at a negative index within range counts from the end. -/
theorem pyGet_neg {α : Type} (l : List α) (i : Int) (h0 : i < 0)
    (h1 : -(l.length : Int) ≤ i) :
    tour1.pyGet l i = tour1.pyGet l (i + l.length) := by
  have h2 : 0 ≤ i + (l.length : Int) := by omega
  have h3 : ¬ (i + (l.length : Int)) < 0 := by omega
  simp [tour1.pyGet, h0, h2, h3]

/-- `pyGet` past the end is an `IndexError`. -/
theorem pyGet_none_of_ge {α : Type} (l : List α) (i : Int)
    (h : (l.length : Int) ≤ i) :
    tour1.pyGet l i = none := by
  have h0 : ¬ i < 0 := by omega
  have h2 : 0 ≤ i := by omega
  simp only [tour1.pyGet, if_neg h0, if_pos h2]
  rw [List.get?_eq_none]
  omega

/-- `pyGet` below `-len` is an `IndexError`. -/
theorem pyGet_none_of_lt_neg {α : Type} (l : List α) (i : Int)
    (h : i < -(l.length : Int)) :
    tour1.pyGet l i = none := by
  have h0 : i < 0 := by omega
  have h2 : ¬ 0 ≤ i + (l.length : Int) := by omega
  simp [tour1.pyGet, h0, h2]

/-- An in-bounds `pyGet` returns the element at the index. -/
theorem pyGet_some_of_lt {α : Type} (l : List α) (i : Int) (h0 : 0 ≤ i)
    (h1 : i < (l.length : Int)) :
    ∃ x, l.get? i.toNat = some x ∧ tour1.pyGet l i = some x := by
  rw [pyGet_nonneg l i h0]
  have h2 : i.toNat < l.length := by omega
  exact ⟨l.get ⟨i.toNat, h2⟩, List.get?_eq_get h2, List.get?_eq_get h2⟩

/-- Whatever `pyGet` returns is in the list. -/
theorem pyGet_mem {α : Type} {l : List α} {i : Int} {x : α}
    (h : tour1.pyGet l i = some x) : x ∈ l := by
  simp only [tour1.pyGet] at h
  split at h <;> split at h
  · exact List.get?_mem h
  · exact Option.noConfusion h
  · exact List.get?_mem h
  · exact Option.noConfusion h

/-! ### C1, C2, C4: the response generator's contract -/

/-- C1: in both variants, when the remote call raises after yielding some
fragments, the generator yields exactly one further diagnostic fragment
(carrying the error detail) and terminates, and the session state — hence
the Conversation Store's length and contents — is exactly what it was
before the call: neither a user record nor a partial model record is
appended. -/
theorem C1_midstream_failure_not_committed
    (chunks : List Chunk) (msg question : String)
    (history store : List ChatRecord)
    (hist1 : List ChatRecord) (s : tour1.SessionState)
    (hk : textFragments chunks ≠ []) :
    TOUR.get_gemini_response true (.err chunks msg) question history store
      = (textFragments chunks ++ ["Sorry, I encountered an error: " ++ msg], store)
    ∧ tour1.get_gemini_response true (.err chunks msg) question hist1 s
      = (textFragments chunks ++ ["Sorry, I encountered an error: " ++ msg], s) :=
  ⟨rfl, rfl⟩

/-- Witness for C1 at a concrete failing stream (fails after one fragment). -/
theorem C1_witness :
    textFragments [Chunk.text "Day 1: Louvre."] ≠ [] ∧
    (TOUR.get_gemini_response true (.err [Chunk.text "Day 1: Louvre."] "quota") "plan" [] []
      = (textFragments [Chunk.text "Day 1: Louvre."]
          ++ ["Sorry, I encountered an error: " ++ "quota"], [])
    ∧ tour1.get_gemini_response true (.err [Chunk.text "Day 1: Louvre."] "quota") "plan" []
        tour1.initState
      = (textFragments [Chunk.text "Day 1: Louvre."]
          ++ ["Sorry, I encountered an error: " ++ "quota"], tour1.initState)) :=
  ⟨by decide,
   C1_midstream_failure_not_committed [Chunk.text "Day 1: Louvre."] "quota" "plan"
     [] [] [] tour1.initState (by decide)⟩

/-- C2: in both variants, when the streamed call completes without raising,
the generator yields exactly the stream's text fragments and appends exactly
two records to the Conversation Store, in order: first a user record whose
text is the input message, then a model record whose text is the
concatenation, in yield order, of all yielded fragments; nothing else in the
session state changes. -/
theorem C2_success_appends_user_then_model
    (chunks : List Chunk) (question : String)
    (history store : List ChatRecord)
    (hist1 : List ChatRecord) (s : tour1.SessionState) :
    TOUR.get_gemini_response true (.ok chunks) question history store
      = (textFragments chunks,
         store ++ [⟨"user", [question]⟩,
                   ⟨"model", [String.join (textFragments chunks)]⟩])
    ∧ tour1.get_gemini_response true (.ok chunks) question hist1 s
      = (textFragments chunks,
         { s with chat_history := s.chat_history ++
             [⟨"user", [question]⟩,
              ⟨"model", [String.join (textFragments chunks)]⟩] }) :=
  ⟨rfl, rfl⟩

/-- C4: in both variants, when the model was never configured the generator
yields exactly one explanatory fragment and terminates, leaving the session
state (hence the Conversation Store's length) unchanged, for every message,
history and remote behaviour. -/
theorem C4_unconfigured_single_fragment
    (outcome : StreamOutcome) (question : String)
    (history store : List ChatRecord)
    (hist1 : List ChatRecord) (s : tour1.SessionState) :
    TOUR.get_gemini_response false outcome question history store
      = (["Error: Gemini model is not initialized. Please check your API key."], store)
    ∧ tour1.get_gemini_response false outcome question hist1 s
      = (["❌ Error: Gemini model is not initialized. Please check your API key."], s) :=
  ⟨rfl, rfl⟩


/-! ### C3: load bounds -/

/-- C3 counterexample: `-1` is outside `0 <= index < len`, yet
`load_saved_itinerary(-1)` does not fail — Python negative indexing makes it
succeed and replace the active store with the last snapshot's history. -/
theorem C3_counterexample :
    ¬ (0 ≤ (-1 : Int))
    ∧ (tour1.load_saved_itinerary c3State (-1)).isSome = true
    ∧ (tour1.load_saved_itinerary c3State (-1)).map tour1.SessionState.chat_history
        = some [⟨"user", ["saved question"]⟩] := by
  refine ⟨by decide, by decide, by decide⟩

/-- C3 amended: `load(index)` for `0 <= index < len` replaces the active
Conversation Store and Trip Parameters with the snapshot's copies (the four
saved parameter fields); for `index >= len` or `index < -len` it fails with
an `IndexError` before any assignment, so nothing is mutated; but for
`-len <= index < 0` it does not fail: Python negative indexing applies and
it behaves as a load of `index + len`. -/
theorem C3_amended_load_bounds (s : tour1.SessionState) (i : Int) :
    (0 ≤ i → i < (s.saved_itineraries.length : Int) →
      ∃ it, s.saved_itineraries.get? i.toNat = some it ∧
        tour1.load_saved_itinerary s i = some
          { s with
            chat_history := it.chat_history,
            current_trip := some ⟨it.destination, it.duration, it.interests,
              it.style, none, none, none⟩ })
    ∧ ((s.saved_itineraries.length : Int) ≤ i ∨ i < -(s.saved_itineraries.length : Int) →
        tour1.load_saved_itinerary s i = none)
    ∧ (-(s.saved_itineraries.length : Int) ≤ i → i < 0 →
        tour1.load_saved_itinerary s i
          = tour1.load_saved_itinerary s (i + s.saved_itineraries.length)) := by
  refine ⟨?_, ?_, ?_⟩
  · intro h0 h1
    obtain ⟨x, hx, hpy⟩ := pyGet_some_of_lt s.saved_itineraries i h0 h1
    exact ⟨x, hx, by simp [tour1.load_saved_itinerary, hpy]⟩
  · rintro (h | h)
    · simp [tour1.load_saved_itinerary, pyGet_none_of_ge _ i h]
    · simp [tour1.load_saved_itinerary, pyGet_none_of_lt_neg _ i h]
  · intro h0 h1
    simp only [tour1.load_saved_itinerary]
    rw [pyGet_neg _ i h1 h0]

/-- Witness for C3 amended: all three branches at concrete indices on
`c3State` (one snapshot). -/
theorem C3_witness :
    (∃ it, c3State.saved_itineraries.get? (0 : Int).toNat = some it ∧
      tour1.load_saved_itinerary c3State 0 = some
        { c3State with
          chat_history := it.chat_history,
          current_trip := some ⟨it.destination, it.duration, it.interests,
            it.style, none, none, none⟩ })
    ∧ tour1.load_saved_itinerary c3State 2 = none
    ∧ tour1.load_saved_itinerary c3State (-1)
        = tour1.load_saved_itinerary c3State (-1 + c3State.saved_itineraries.length) :=
  ⟨(C3_amended_load_bounds c3State 0).1 (by decide) (by decide),
   (C3_amended_load_bounds c3State 2).2.1 (Or.inl (by decide)),
   (C3_amended_load_bounds c3State (-1)).2.2 (by decide) (by decide)⟩

/-! ### C7, C8: export -/

/-- Decoding inverts encoding, stringwise. -/
theorem decodeStringList_map_str (l : List String) :
    tour1.decodeStringList (l.map tour1.Json.str) = some l := by
  induction l with
  | nil => rfl
  | cons x xs ih => simp [tour1.decodeStringList, ih]

/-- Decoding inverts encoding for one record. -/
theorem decodeChatRecord_toJson (r : ChatRecord) :
    tour1.decodeChatRecord (tour1.chatRecordToJson r) = some r := by
  cases r with
  | mk role parts =>
      simp [tour1.chatRecordToJson, tour1.decodeChatRecord, tour1.jsonLookup,
        decodeStringList_map_str]

/-- Decoding inverts encoding for a record list. -/
theorem decodeChatRecords_map (l : List ChatRecord) :
    tour1.decodeChatRecords (l.map tour1.chatRecordToJson) = some l := by
  induction l with
  | nil => rfl
  | cons r rs ih => simp [tour1.decodeChatRecords, decodeChatRecord_toJson, ih]

/-- C7: parsing the `chat_history` member back out of the document produced
by `export_chat_history` yields exactly the active store's records — same
count, same role/text values, in order. -/
theorem C7_export_roundtrip (s : tour1.SessionState) (now : String) :
    tour1.parseExportedChatHistory (tour1.export_chat_history s now).2
      = some s.chat_history := by
  simp [tour1.export_chat_history, tour1.parseExportedChatHistory,
    tour1.jsonLookup, decodeChatRecords_map]

/-- C8: `export_chat_history` has no side effect — the session state (Trip
Parameters, Conversation Store, snapshot list and statistics) is returned
unchanged — and the document is a JSON object with exactly the keys
`trip_details` (the active Trip Parameters, or null when none),
`chat_history` (the list of role/parts records) and `exported_at`
(a timestamp string). -/
theorem C8_export_pure_and_shape (s : tour1.SessionState) (now : String) :
    (tour1.export_chat_history s now).1 = s
    ∧ tour1.jsonKeys (tour1.export_chat_history s now).2
        = ["trip_details", "chat_history", "exported_at"]
    ∧ tour1.jsonField (tour1.export_chat_history s now).2 "trip_details"
        = some (match s.current_trip with
                | none => tour1.Json.null
                | some t => tour1.tripToJson t)
    ∧ tour1.jsonField (tour1.export_chat_history s now).2 "chat_history"
        = some (tour1.Json.arr (s.chat_history.map tour1.chatRecordToJson))
    ∧ tour1.jsonField (tour1.export_chat_history s now).2 "exported_at"
        = some (tour1.Json.str now) :=
  ⟨rfl, rfl, rfl, rfl, rfl⟩

/-! ### C10: save keeps only four of the seven trip fields -/

/-- C10: a save followed by a load of that snapshot does not preserve the
full active Trip Parameters.  `save_itinerary` records only destination,
duration, interests and style, so after `load_saved_itinerary` the active
Trip Parameters hold exactly those four fields and the budget, travelers and
accommodation values that were active at save time are gone (`none`). -/
theorem C10_save_load_drops_extras (s : tour1.SessionState) (t : tour1.Trip)
    (now : String) (h : s.current_trip = some t) :
    tour1.load_saved_itinerary (tour1.save_trip_button s now)
        (s.saved_itineraries.length)
      = some { tour1.save_trip_button s now with
          chat_history := s.chat_history,
          current_trip := some ⟨t.destination, t.duration, t.interests, t.style,
            none, none, none⟩ } := by
  simp only [tour1.save_trip_button, h, tour1.save_itinerary,
    tour1.load_saved_itinerary]
  rw [pyGet_nonneg _ _ (Int.natCast_nonneg _)]
  simp [List.get?_eq_getElem?, List.getElem?_concat_length]

/-- Witness for C10 on a session whose active trip has all seven keys. -/
theorem C10_witness :
    tour1.load_saved_itinerary (tour1.save_trip_button c10State "2025-01-01 00:00:00")
        (c10State.saved_itineraries.length)
      = some { tour1.save_trip_button c10State "2025-01-01 00:00:00" with
          chat_history := c10State.chat_history,
          current_trip := some ⟨c10Trip.destination, c10Trip.duration,
            c10Trip.interests, c10Trip.style, none, none, none⟩ } :=
  C10_save_load_drops_extras c10State c10Trip "2025-01-01 00:00:00" rfl

/-! ### C5: how each operation may change the store -/

/-- C5 counterexample: loading the saved snapshot of `c5State` leaves the
Conversation Store neither wholly reset to an empty sequence nor equal to
the previous store extended at the tail — `load` rewrites it wholesale. -/
theorem C5_counterexample :
    (tour1.applyOp (.loadSaved 0) c5State).chat_history ≠ []
    ∧ ¬ (∃ t, (tour1.applyOp (.loadSaved 0) c5State).chat_history
          = c5State.chat_history ++ t) := by
  constructor
  · decide
  · rintro ⟨t, ht⟩
    have h1 : (tour1.applyOp (.loadSaved 0) c5State).chat_history
        = [⟨"user", ["saved q"]⟩, ⟨"model", ["saved a"]⟩] := by decide
    have h2 : c5State.chat_history = [⟨"user", ["old question"]⟩] := by decide
    rw [h1, h2] at ht
    simp only [List.cons_append, List.nil_append] at ht
    injection ht with hh _
    exact absurd hh (by decide)

/-- C5 amended: across every operation the program performs, the
Conversation Store after the operation is the store before it extended at
the tail, or the empty sequence, or (itinerary generation after its internal
reset) exactly one fresh user record followed by one fresh model record, or
(load) the copy stored in one of the saved snapshots; no operation edits an
interior record in place, deletes one individually, or reorders them. -/
theorem C5_amended_store_discipline (op : tour1.Op) (s : tour1.SessionState) :
    (∃ t, (tour1.applyOp op s).chat_history = s.chat_history ++ t)
    ∨ (tour1.applyOp op s).chat_history = []
    ∨ (∃ q f, (tour1.applyOp op s).chat_history = [⟨"user", [q]⟩, ⟨"model", [f]⟩])
    ∨ (∃ it, it ∈ s.saved_itineraries
        ∧ (tour1.applyOp op s).chat_history = it.chat_history) := by
  cases op with
  | generate mc oc dest dur ints b tv ap sty acc =>
    by_cases hval : dest = "" ∨ ints = []
    · exact Or.inl ⟨[], by simp [tour1.applyOp, tour1.generate_plan_handler, hval]⟩
    · cases mc with
      | false =>
        exact Or.inl ⟨[], by simp [tour1.applyOp, tour1.generate_plan_handler, hval]⟩
      | true =>
        cases oc with
        | ok chunks =>
          refine Or.inr (Or.inr (Or.inl
            ⟨tour1.build_model_prompt dur dest tv b
                (String.intercalate ", " (ints.map tour1.stripEmoji)) sty acc ap,
             String.join (textFragments chunks), ?_⟩))
          simp [tour1.applyOp, tour1.generate_plan_handler, hval,
            tour1.get_gemini_response]
        | err chunks msg =>
          refine Or.inr (Or.inl ?_)
          simp [tour1.applyOp, tour1.generate_plan_handler, hval,
            tour1.get_gemini_response]
  | followup mc oc q =>
    by_cases h1 : q = ""
    · exact Or.inl ⟨[], by simp [tour1.applyOp, tour1.followup_handler, h1]⟩
    · by_cases h2 : s.chat_history = []
      · exact Or.inl ⟨[], by simp [tour1.applyOp, tour1.followup_handler, h1, h2]⟩
      · cases mc with
        | false =>
          exact Or.inl ⟨[], by simp [tour1.applyOp, tour1.followup_handler, h1, h2]⟩
        | true =>
          cases oc with
          | ok chunks =>
            exact Or.inl
              ⟨[⟨"user", [q]⟩, ⟨"model", [String.join (textFragments chunks)]⟩],
               by simp [tour1.applyOp, tour1.followup_handler, h1, h2,
                 tour1.get_gemini_response]⟩
          | err chunks msg =>
            exact Or.inl ⟨[], by simp [tour1.applyOp, tour1.followup_handler, h1, h2,
              tour1.get_gemini_response]⟩
  | clearChat =>
    exact Or.inr (Or.inl (by simp [tour1.applyOp, tour1.clear_chat_button]))
  | saveTrip now =>
    refine Or.inl ⟨[], ?_⟩
    cases h : s.current_trip <;>
      simp [tour1.applyOp, tour1.save_trip_button, tour1.save_itinerary, h]
  | loadSaved i =>
    cases hpy : tour1.pyGet s.saved_itineraries i with
    | none =>
      exact Or.inl ⟨[], by simp [tour1.applyOp, tour1.load_saved_itinerary, hpy]⟩
    | some it =>
      exact Or.inr (Or.inr (Or.inr ⟨it, pyGet_mem hpy,
        by simp [tour1.applyOp, tour1.load_saved_itinerary, hpy]⟩))
  | exportChat now =>
    exact Or.inl ⟨[], by simp [tour1.applyOp, tour1.export_chat_history]⟩

/-! ### C6: trip statistics -/

/-- C6 counterexample: a generation attempt whose streamed remote call fails
immediately (the store stays empty — no itinerary was produced) still
increments `total_trips`, `total_days` and records the destination: the
statistics update is NOT coupled to the generation succeeding. -/
theorem C6_counterexample :
    (tour1.generate_plan_handler true (.err [] "quota exceeded") "Paris" 5
        ["museums"] "Budget" 2 "" "Relaxed" "Hotels" tour1.initState).chat_history = []
    ∧ (tour1.generate_plan_handler true (.err [] "quota exceeded") "Paris" 5
        ["museums"] "Budget" 2 "" "Relaxed" "Hotels" tour1.initState).trip_stats
      = ⟨1, 5, ["Paris"]⟩ := by
  refine ⟨by decide, by decide⟩

/-- C6 amended: the Trip Statistics are updated exactly once per
itinerary-generation ATTEMPT that passes the form checks with a configured
model — `total_trips + 1`, `total_days + duration`, destination appended iff
absent — regardless of whether the streamed remote call then succeeds or
fails; every other operation (and a blocked generation) leaves them
unchanged; and no operation ever decreases any of the counters or removes a
recorded destination. -/
theorem C6_amended_stats_per_attempt :
    (∀ (mc : Bool) (oc : StreamOutcome) (dest : String) (dur : Nat)
        (ints : List String) (b : String) (tv : Nat) (ap sty acc : String)
        (s : tour1.SessionState),
        dest ≠ "" → ints ≠ [] → mc = true →
        (tour1.generate_plan_handler mc oc dest dur ints b tv ap sty acc s).trip_stats
          = tour1.updateStats s.trip_stats dest dur)
    ∧ (∀ (mc : Bool) (oc : StreamOutcome) (dest : String) (dur : Nat)
        (ints : List String) (b : String) (tv : Nat) (ap sty acc : String)
        (s : tour1.SessionState),
        (dest = "" ∨ ints = [] ∨ mc = false) →
        (tour1.generate_plan_handler mc oc dest dur ints b tv ap sty acc s).trip_stats
          = s.trip_stats)
    ∧ (∀ (mc : Bool) (oc : StreamOutcome) (q : String) (s : tour1.SessionState),
        (tour1.followup_handler mc oc q s).trip_stats = s.trip_stats)
    ∧ (∀ s : tour1.SessionState, (tour1.clear_chat_button s).trip_stats = s.trip_stats)
    ∧ (∀ (s : tour1.SessionState) (now : String),
        (tour1.save_trip_button s now).trip_stats = s.trip_stats)
    ∧ (∀ (s : tour1.SessionState) (i : Int),
        ((tour1.load_saved_itinerary s i).getD s).trip_stats = s.trip_stats)
    ∧ (∀ (s : tour1.SessionState) (now : String),
        ((tour1.export_chat_history s now).1).trip_stats = s.trip_stats)
    ∧ (∀ (op : tour1.Op) (s : tour1.SessionState),
        s.trip_stats.total_trips ≤ (tour1.applyOp op s).trip_stats.total_trips
        ∧ s.trip_stats.total_days ≤ (tour1.applyOp op s).trip_stats.total_days
        ∧ ∀ d ∈ s.trip_stats.destinations,
            d ∈ (tour1.applyOp op s).trip_stats.destinations) := by
  have hgen : ∀ (oc : StreamOutcome) (dest : String) (dur : Nat)
      (ints : List String) (b : String) (tv : Nat) (ap sty acc : String)
      (s : tour1.SessionState), ¬ (dest = "" ∨ ints = []) →
      (tour1.generate_plan_handler true oc dest dur ints b tv ap sty acc s).trip_stats
        = tour1.updateStats s.trip_stats dest dur := by
    intro oc dest dur ints b tv ap sty acc s hval
    simp [tour1.generate_plan_handler, hval, gemini_preserves_stats]
  have hfollow : ∀ (mc : Bool) (oc : StreamOutcome) (q : String)
      (s : tour1.SessionState),
      (tour1.followup_handler mc oc q s).trip_stats = s.trip_stats := by
    intro mc oc q s
    simp only [tour1.followup_handler]
    split
    · rfl
    · split
      · rfl
      · split
        · rfl
        · exact gemini_preserves_stats _ _ _ _ _
  have hsave : ∀ (s : tour1.SessionState) (now : String),
      (tour1.save_trip_button s now).trip_stats = s.trip_stats := by
    intro s now
    cases h : s.current_trip <;>
      simp [tour1.save_trip_button, tour1.save_itinerary, h]
  have hload : ∀ (s : tour1.SessionState) (i : Int),
      ((tour1.load_saved_itinerary s i).getD s).trip_stats = s.trip_stats := by
    intro s i
    cases hpy : tour1.pyGet s.saved_itineraries i <;>
      simp [tour1.load_saved_itinerary, hpy]
  have hblocked : ∀ (mc : Bool) (oc : StreamOutcome) (dest : String) (dur : Nat)
      (ints : List String) (b : String) (tv : Nat) (ap sty acc : String)
      (s : tour1.SessionState), (dest = "" ∨ ints = [] ∨ mc = false) →
      (tour1.generate_plan_handler mc oc dest dur ints b tv ap sty acc s).trip_stats
        = s.trip_stats := by
    rintro mc oc dest dur ints b tv ap sty acc s (h | h | h)
    · simp [tour1.generate_plan_handler, h]
    · simp [tour1.generate_plan_handler, h]
    · subst h; simp [tour1.generate_plan_handler]
  refine ⟨?_, hblocked, hfollow, fun s => rfl, hsave, hload, fun s now => rfl, ?_⟩
  · intro mc oc dest dur ints b tv ap sty acc s hd hi hm
    subst hm
    exact hgen oc dest dur ints b tv ap sty acc s (by rintro (h | h) <;> [exact hd h; exact hi h])
  · intro op s
    have key : (tour1.applyOp op s).trip_stats = s.trip_stats
        ∨ ∃ dest dur, (tour1.applyOp op s).trip_stats
            = tour1.updateStats s.trip_stats dest dur := by
      cases op with
      | generate mc oc dest dur ints b tv ap sty acc =>
        by_cases hval : dest = "" ∨ ints = []
        · refine Or.inl ?_
          rcases hval with h | h
          · exact hblocked mc oc dest dur ints b tv ap sty acc s (Or.inl h)
          · exact hblocked mc oc dest dur ints b tv ap sty acc s (Or.inr (Or.inl h))
        · cases mc with
          | false =>
            exact Or.inl (hblocked false oc dest dur ints b tv ap sty acc s
              (Or.inr (Or.inr rfl)))
          | true => exact Or.inr ⟨dest, dur, hgen oc dest dur ints b tv ap sty acc s hval⟩
      | followup mc oc q => exact Or.inl (hfollow mc oc q s)
      | clearChat => exact Or.inl rfl
      | saveTrip now => exact Or.inl (hsave s now)
      | loadSaved i => exact Or.inl (hload s i)
      | exportChat now => exact Or.inl rfl
    rcases key with h | ⟨dest, dur, h⟩
    · rw [h]
      exact ⟨Nat.le_refl _, Nat.le_refl _, fun d hd => hd⟩
    · rw [h]
      refine ⟨Nat.le_succ _, Nat.le_add_right _ _, ?_⟩
      intro d hd
      simp only [tour1.updateStats]
      split
      · exact hd
      · exact List.mem_append_left _ hd

/-- Witness for C6 amended: a concrete valid attempt with a failing stream
still performs the statistics update, a concrete blocked attempt does not. -/
theorem C6_witness :
    (tour1.generate_plan_handler true (.err [] "boom") "Paris" 5 ["museums"]
        "Budget" 2 "" "Relaxed" "Hotels" tour1.initState).trip_stats
      = tour1.updateStats tour1.initState.trip_stats "Paris" 5
    ∧ (tour1.generate_plan_handler true (.ok [.text "hi"]) "" 5 ["museums"]
        "Budget" 2 "" "Relaxed" "Hotels" tour1.initState).trip_stats
      = tour1.initState.trip_stats :=
  ⟨C6_amended_stats_per_attempt.1 true (.err [] "boom") "Paris" 5 ["museums"]
      "Budget" 2 "" "Relaxed" "Hotels" tour1.initState (by decide) (by decide) rfl,
   C6_amended_stats_per_attempt.2.1 true (.ok [.text "hi"]) "" 5 ["museums"]
      "Budget" 2 "" "Relaxed" "Hotels" tour1.initState (Or.inl rfl)⟩

/-! ### C9: snapshot isolation of the saved copy -/

/-- One store operation leaves every cell other than the live one intact,
keeps that cell in range, and keeps the live cell distinct from it. -/
theorem readCell_applyHOp (op : RefSem.HOp) (s : RefSem.HState) (c : Nat)
    (hc : c < s.heap.length) (hne : s.chatCell ≠ c) :
    RefSem.readCell (RefSem.applyHOp op s) c = RefSem.readCell s c
    ∧ c < (RefSem.applyHOp op s).heap.length
    ∧ (RefSem.applyHOp op s).chatCell ≠ c := by
  cases op with
  | append r =>
    refine ⟨?_, ?_, hne⟩
    · simp only [RefSem.applyHOp, RefSem.appendRec, RefSem.readCell,
        List.getD_eq_getElem?_getD]
      rw [List.getElem?_set_ne hne]
    · simpa [RefSem.applyHOp, RefSem.appendRec] using hc
  | clear =>
    refine ⟨?_, ?_, ?_⟩
    · simp only [RefSem.applyHOp, RefSem.clearHist, RefSem.readCell,
        List.getD_eq_getElem?_getD]
      rw [List.getElem?_append_left hc]
    · simp only [RefSem.applyHOp, RefSem.clearHist, List.length_append]
      omega
    · simp only [RefSem.applyHOp, RefSem.clearHist]
      omega

/-- Any sequence of store operations leaves every other cell intact. -/
theorem readCell_applyHOps (ops : List RefSem.HOp) (s : RefSem.HState) (c : Nat)
    (hc : c < s.heap.length) (hne : s.chatCell ≠ c) :
    RefSem.readCell (RefSem.applyHOps ops s) c = RefSem.readCell s c := by
  induction ops generalizing s with
  | nil => rfl
  | cons op ops ih =>
    obtain ⟨h1, h2, h3⟩ := readCell_applyHOp op s c hc hne
    calc RefSem.readCell (RefSem.applyHOps ops (RefSem.applyHOp op s)) c
        = RefSem.readCell (RefSem.applyHOp op s) c := ih (RefSem.applyHOp op s) h2 h3
      _ = RefSem.readCell s c := h1

/-- C9: after `save_itinerary` captures its `.copy()` snapshot, any sequence
of later appends to or resets of the active Conversation Store leaves the
saved snapshot's `chat_history` object holding exactly the records copied at
save time (in particular, the same number of records): the saved list is an
object distinct from the live store. -/
theorem C9_snapshot_isolation (s : RefSem.HState) (ops : List RefSem.HOp)
    (h : s.chatCell < s.heap.length) :
    RefSem.readCell (RefSem.applyHOps ops (RefSem.saveCopy s).1) (RefSem.saveCopy s).2
      = RefSem.readCell s s.chatCell := by
  have hc : (RefSem.saveCopy s).2 < (RefSem.saveCopy s).1.heap.length := by
    simp only [RefSem.saveCopy, List.length_append, List.length_cons, List.length_nil]
    omega
  have hne : (RefSem.saveCopy s).1.chatCell ≠ (RefSem.saveCopy s).2 := by
    simp only [RefSem.saveCopy]
    omega
  rw [readCell_applyHOps ops _ _ hc hne]
  simp only [RefSem.saveCopy, RefSem.readCell, List.getD_eq_getElem?_getD]
  rw [List.getElem?_concat_length]
  rfl

/-- Witness for C9: a concrete save followed by two appends and a reset. -/
theorem C9_witness :
    c9State.chatCell < c9State.heap.length
    ∧ RefSem.readCell
        (RefSem.applyHOps
          [.append ⟨"user", ["more"]⟩, .append ⟨"model", ["reply"]⟩, .clear]
          (RefSem.saveCopy c9State).1)
        (RefSem.saveCopy c9State).2
      = RefSem.readCell c9State c9State.chatCell :=
  ⟨by decide,
   C9_snapshot_isolation c9State
     [.append ⟨"user", ["more"]⟩, .append ⟨"model", ["reply"]⟩, .clear] (by decide)⟩
